import Mathlib

/-!
Shallow embedding of the intent-to-query translation engine of
`app/services/nlp_service.py` (classes `QueryIntent` and `QueryBuilder`),
together with theorems checking the specification against it.

Python dictionaries are embedded as insertion-ordered association lists
(`List (String × α)`): the membership test `k in d` becomes
`(d.lookup k).isSome`, the read `d[k]` becomes `d.lookup k`, and the
assignment `d[k] = v` becomes `dict_insert` (overwrite in place if the key
is present, append otherwise), which is exactly the insertion-order
semantics of a Python dict.  Raising `ValueError` is embedded as returning
`Except.error`.
-/

/-- A Python value that can occur as a filter value / bound parameter in
`QueryIntent.filters` (typed `Dict[str, Any]` in the source): an integer or
a string. -/
inductive Value where
  | i : Int → Value
  | s : String → Value
deriving DecidableEq

/-- Embeds `QueryIntent` (nlp_service.py lines 10-16): a pydantic model with
fields `intent`, `metric`, optional `time_range` (a `Dict[str, str]`),
`filters` (a `Dict[str, Any]`, default empty) and optional `group_by`.
The source declares no custom validator on any field. -/
structure QueryIntent where
  intent : String
  metric : String
  time_range : Option (List (String × String))
  filters : List (String × Value)
  group_by : Option String
deriving DecidableEq

/-- Embeds construction of a `QueryIntent` from already-typed NLU output.
The source class is a plain pydantic `BaseModel` with no custom validators,
so construction from values of the declared field types always succeeds and
stores the fields unchanged; no vocabulary check, timestamp parsing or
range check is performed anywhere in the class. -/
def mk_query_intent (intent metric : String) (time_range : Option (List (String × String)))
    (filters : List (String × Value)) (group_by : Option String) : QueryIntent :=
  ⟨intent, metric, time_range, filters, group_by⟩

/-- Python dict assignment `d[k] = v` on an insertion-ordered dict:
overwrite in place when the key exists, append otherwise. -/
def dict_insert (d : List (String × Value)) (k : String) (v : Value) : List (String × Value) :=
  if (d.lookup k).isSome then
    d.map (fun kv => if kv.1 = k then (k, v) else kv)
  else
    d ++ [(k, v)]

/-- Embeds the time-range branch shared by `_build_count_query`
(lines 120-127) and `_build_sum_query` (lines 151-158): the clauses
appended to `where_clauses`.  `if start in intent.time_range` appends
`created_at >= :start_date`; `if end in intent.time_range` appends
`created_at <= :end_date`. -/
def time_clauses : Option (List (String × String)) → List String
  | none => []
  | some d =>
    (match d.lookup "start" with
      | some _ => ["created_at >= :start_date"]
      | none => []) ++
    (match d.lookup "end" with
      | some _ => ["created_at <= :end_date"]
      | none => [])

/-- Embeds the parameter entries recorded by the same time-range branch:
`params[start_date] = intent.time_range[start]` and
`params[end_date] = intent.time_range[end]`. -/
def time_params : Option (List (String × String)) → List (String × Value)
  | none => []
  | some d =>
    (match d.lookup "start" with
      | some v => [("start_date", Value.s v)]
      | none => []) ++
    (match d.lookup "end" with
      | some v => [("end_date", Value.s v)]
      | none => [])

/-- Embeds the filter loop of `_build_count_query` (lines 129-132) and
`_build_sum_query` (lines 160-163): for each `(key, value)` in
`intent.filters.items()`, the clause f-string interpolates the KEY into the
template text as `key = :key` (the value travels separately as a
parameter). -/
def filter_clauses (filters : List (String × Value)) : List String :=
  filters.map (fun kv => kv.1 ++ " = :" ++ kv.1)

/-- Embeds the parameter side of the same loop: `params[key] = value` for
each filter item, executed after the time-range parameters, with Python
dict-assignment semantics. -/
def filter_params (init : List (String × Value)) (filters : List (String × Value)) :
    List (String × Value) :=
  filters.foldl (fun d kv => dict_insert d kv.1 kv.2) init

/-- Embeds `where_clause = f"WHERE {joined}" if where_clauses else ""`,
where `joined` is `" AND ".join(where_clauses)`. -/
def where_text (where_clauses : List String) : String :=
  if where_clauses.isEmpty then "" else "WHERE " ++ String.intercalate " AND " where_clauses

/-- Embeds `QueryBuilder._build_count_query` (lines 114-143). -/
def build_count_query (intent : QueryIntent) : String × List (String × Value) :=
  let where_clauses := time_clauses intent.time_range ++ filter_clauses intent.filters
  let params := filter_params (time_params intent.time_range) intent.filters
  let where_clause := where_text where_clauses
  if intent.metric = "videos" then
    ("SELECT COUNT(*) FROM videos " ++ where_clause, params)
  else
    ("SELECT COUNT(DISTINCT video_id) FROM video_snapshots " ++ where_clause, params)

/-- Embeds the metric-to-column dict lookup with default in
`_build_sum_query` (lines 166-171): `{views: ..., likes: ..., comments: ...,
reports: ...}.get(intent.metric, "delta_views_count")`. -/
def metric_column (metric : String) : String :=
  if metric = "views" then "delta_views_count"
  else if metric = "likes" then "delta_likes_count"
  else if metric = "comments" then "delta_comments_count"
  else if metric = "reports" then "delta_reports_count"
  else "delta_views_count"

/-- Embeds `QueryBuilder._build_sum_query` (lines 145-177). -/
def build_sum_query (intent : QueryIntent) : String × List (String × Value) :=
  let where_clauses := time_clauses intent.time_range ++ filter_clauses intent.filters
  let params := filter_params (time_params intent.time_range) intent.filters
  let where_clause := where_text where_clauses
  ("SELECT COALESCE(SUM(" ++ metric_column intent.metric ++ "), 0) FROM video_snapshots "
      ++ where_clause, params)

/-- The failure raised by `QueryBuilder.build_query` (line 112):
`raise ValueError(f"Unsupported query type: {intent.intent}")`. -/
inductive BuildError where
  | unsupportedQueryType : String → BuildError
deriving DecidableEq

/-- Embeds `QueryBuilder.build_query` (lines 103-112): dispatch on
`intent.intent`, raising for every other aggregation kind. -/
def build_query (intent : QueryIntent) : Except BuildError (String × List (String × Value)) :=
  if intent.intent = "count" then Except.ok (build_count_query intent)
  else if intent.intent = "sum" then Except.ok (build_sum_query intent)
  else Except.error (BuildError.unsupportedQueryType intent.intent)

/-- The template component of a compilation result (`none` when compilation
failed). -/
def template_of (r : Except BuildError (String × List (String × Value))) : Option String :=
  match r with
  | Except.ok tp => some tp.1
  | Except.error _ => none

/-- Modelled from the spec: the Query Executor Adapter (spec section 4.4) is
an external collaborator not present in the repository; it evaluates a
compiled comparison predicate on the observation timestamp with standard SQL
comparison semantics, each parameter taken strictly as a bound value.
`clause_sat ts params c` decides whether a row whose `created_at` is `ts`
satisfies the clause `c` (ISO-8601 timestamp strings compare
lexicographically). -/
def clause_sat (ts : String) (params : List (String × Value)) (c : String) : Bool :=
  if c = "created_at >= :start_date" then
    match params.lookup "start_date" with
    | some (Value.s v) => decide (v ≤ ts)
    | _ => false
  else if c = "created_at > :start_date" then
    match params.lookup "start_date" with
    | some (Value.s v) => decide (v < ts)
    | _ => false
  else if c = "created_at <= :end_date" then
    match params.lookup "end_date" with
    | some (Value.s v) => decide (ts ≤ v)
    | _ => false
  else if c = "created_at < :end_date" then
    match params.lookup "end_date" with
    | some (Value.s v) => decide (ts < v)
    | _ => false
  else true

/-- Scenario A of the spec: count all videos, no filters. -/
def scenario_a : QueryIntent := ⟨"count", "videos", none, [], none⟩

/-- Scenario B of the spec: count videos of creator 123 between two dates. -/
def scenario_b : QueryIntent :=
  ⟨"count", "videos", some [("start", "2025-11-01"), ("end", "2025-11-05")],
    [("creator_id", Value.i 123)], none⟩

/-- Scenario C of the spec: sum of delta views over one day. -/
def scenario_c : QueryIntent :=
  ⟨"sum", "views", some [("start", "2025-11-28"), ("end", "2025-11-28")], [], none⟩

/-- Scenario D of the spec: count distinct videos with new views on a day. -/
def scenario_d : QueryIntent :=
  ⟨"count", "views", some [("start", "2025-11-27"), ("end", "2025-11-27")],
    [("min_delta_views", Value.i 1)], none⟩

/-- An intent whose filter key carries SQL metacharacters. -/
def evil_intent : QueryIntent :=
  ⟨"count", "videos", none, [("id; DROP TABLE videos --", Value.s "x")], none⟩

/- Helper lemmas about the shape of the compiled templates. -/

theorem build_count_template (i : QueryIntent) :
    (build_count_query i).1 =
      (if i.metric = "videos" then "SELECT COUNT(*) FROM videos "
        else "SELECT COUNT(DISTINCT video_id) FROM video_snapshots ")
        ++ where_text (time_clauses i.time_range ++ filter_clauses i.filters) := by
  by_cases h : i.metric = "videos" <;> simp [build_count_query, h]

theorem build_sum_template (i : QueryIntent) :
    (build_sum_query i).1 =
      "SELECT COALESCE(SUM(" ++ metric_column i.metric ++ "), 0) FROM video_snapshots "
        ++ where_text (time_clauses i.time_range ++ filter_clauses i.filters) := rfl

theorem template_of_build (i : QueryIntent) :
    template_of (build_query i) =
      if i.intent = "count" then some ((build_count_query i).1)
      else if i.intent = "sum" then some ((build_sum_query i).1)
      else none := by
  by_cases h1 : i.intent = "count" <;> by_cases h2 : i.intent = "sum" <;>
    simp [build_query, template_of, h1, h2]

/-- C3: for every query intent whose aggregation kind is outside the
implemented set (count, sum), `build_query` fails with the
unsupported-query-type error (the raised `ValueError`) rather than falling
back to any default query. -/
theorem C3_unsupported_aggregation_fails (i : QueryIntent)
    (h1 : i.intent ≠ "count") (h2 : i.intent ≠ "sum") :
    build_query i = Except.error (BuildError.unsupportedQueryType i.intent) := by
  simp [build_query, h1, h2]

/-- Witness for C3 at the concrete aggregation kind `median` of Scenario E. -/
theorem C3_witness :
    build_query ⟨"median", "views", none, [], none⟩ =
      Except.error (BuildError.unsupportedQueryType "median") :=
  C3_unsupported_aggregation_fails ⟨"median", "views", none, [], none⟩
    (by decide) (by decide)

/-- C7: every count-of-videos intent compiles to a count over the `videos`
table; Scenario A (no filters, no range) gives the bare count with an empty
parameter mapping, and Scenario B (creator filter plus two-sided range)
gives a creator-equality predicate, two inclusive timestamp predicates and
exactly the three corresponding parameters. -/
theorem C7_count_videos (i : QueryIntent)
    (h1 : i.intent = "count") (h2 : i.metric = "videos") :
    (∃ p, build_query i = Except.ok
      ("SELECT COUNT(*) FROM videos "
        ++ where_text (time_clauses i.time_range ++ filter_clauses i.filters), p)) ∧
    build_query scenario_a = Except.ok ("SELECT COUNT(*) FROM videos ", []) ∧
    build_query scenario_b = Except.ok
      ("SELECT COUNT(*) FROM videos WHERE created_at >= :start_date AND created_at <= :end_date AND creator_id = :creator_id",
        [("start_date", Value.s "2025-11-01"), ("end_date", Value.s "2025-11-05"),
          ("creator_id", Value.i 123)]) := by
  refine ⟨⟨(build_count_query i).2, ?_⟩, rfl, rfl⟩
  have ht : (build_count_query i).1 =
      "SELECT COUNT(*) FROM videos "
        ++ where_text (time_clauses i.time_range ++ filter_clauses i.filters) := by
    simp [build_count_query, h2]
  simp [build_query, h1, ← ht]

/-- Witness for C7 at Scenario B. -/
theorem C7_witness :
    (∃ p, build_query scenario_b = Except.ok
      ("SELECT COUNT(*) FROM videos "
        ++ where_text (time_clauses scenario_b.time_range ++ filter_clauses scenario_b.filters), p)) ∧
    build_query scenario_a = Except.ok ("SELECT COUNT(*) FROM videos ", []) ∧
    build_query scenario_b = Except.ok
      ("SELECT COUNT(*) FROM videos WHERE created_at >= :start_date AND created_at <= :end_date AND creator_id = :creator_id",
        [("start_date", Value.s "2025-11-01"), ("end_date", Value.s "2025-11-05"),
          ("creator_id", Value.i 123)]) :=
  C7_count_videos scenario_b rfl rfl

/-- C6: every sum intent compiles to a template that wraps the aggregated
column as `COALESCE(SUM(column), 0)`, so a predicate matching zero rows has
the defined result 0; Scenario C compiles to the sum of `delta_views_count`
over `video_snapshots` with the inclusive one-day bound. -/
theorem C6_sum_coalesce_zero (i : QueryIntent) (h : i.intent = "sum") :
    (∃ p, build_query i = Except.ok
      ("SELECT COALESCE(SUM(" ++ metric_column i.metric ++ "), 0) FROM video_snapshots "
        ++ where_text (time_clauses i.time_range ++ filter_clauses i.filters), p)) ∧
    build_query scenario_c = Except.ok
      ("SELECT COALESCE(SUM(delta_views_count), 0) FROM video_snapshots WHERE created_at >= :start_date AND created_at <= :end_date",
        [("start_date", Value.s "2025-11-28"), ("end_date", Value.s "2025-11-28")]) := by
  refine ⟨⟨(build_sum_query i).2, ?_⟩, rfl⟩
  by_cases hc : i.intent = "count"
  · rw [hc] at h; exact absurd h (by decide)
  · simp [build_query, hc, h, ← build_sum_template i]

/-- Witness for C6 at Scenario C. -/
theorem C6_witness :
    (∃ p, build_query scenario_c = Except.ok
      ("SELECT COALESCE(SUM(" ++ metric_column scenario_c.metric ++ "), 0) FROM video_snapshots "
        ++ where_text (time_clauses scenario_c.time_range ++ filter_clauses scenario_c.filters), p)) ∧
    build_query scenario_c = Except.ok
      ("SELECT COALESCE(SUM(delta_views_count), 0) FROM video_snapshots WHERE created_at >= :start_date AND created_at <= :end_date",
        [("start_date", Value.s "2025-11-28"), ("end_date", Value.s "2025-11-28")]) :=
  C6_sum_coalesce_zero scenario_c rfl

/-- C10: a sum intent whose metric is outside the four recognized ones
(views, likes, comments, reports) still compiles, silently summing the
default column `delta_views_count`. -/
theorem C10_sum_default_column (i : QueryIntent) (h : i.intent = "sum")
    (h1 : i.metric ≠ "views") (h2 : i.metric ≠ "likes")
    (h3 : i.metric ≠ "comments") (h4 : i.metric ≠ "reports") :
    ∃ p, build_query i = Except.ok
      ("SELECT COALESCE(SUM(delta_views_count), 0) FROM video_snapshots "
        ++ where_text (time_clauses i.time_range ++ filter_clauses i.filters), p) := by
  refine ⟨(build_sum_query i).2, ?_⟩
  by_cases hc : i.intent = "count"
  · rw [hc] at h; exact absurd h (by decide)
  · have hm : metric_column i.metric = "delta_views_count" := by
      simp [metric_column, h1, h2, h3, h4]
    have ht : (build_sum_query i).1 =
        "SELECT COALESCE(SUM(delta_views_count), 0) FROM video_snapshots "
          ++ where_text (time_clauses i.time_range ++ filter_clauses i.filters) := by
      rw [build_sum_template i, hm]; rfl
    simp [build_query, hc, h, ← ht]

/-- Witness for C10 at the out-of-vocabulary sum metric `videos`. -/
theorem C10_witness :
    ∃ p, build_query ⟨"sum", "videos", none, [], none⟩ = Except.ok
      ("SELECT COALESCE(SUM(delta_views_count), 0) FROM video_snapshots "
        ++ where_text (time_clauses none ++ filter_clauses []), p) :=
  C10_sum_default_column ⟨"sum", "videos", none, [], none⟩ rfl
    (by decide) (by decide) (by decide) (by decide)

/-- C1: the compiled template is a function of the intent kind, the metric,
the time range and the filter KEYS alone; two intents that agree on those
but carry different filter values (for instance one value full of SQL
metacharacters and one benign value) compile to byte-identical templates,
only the parameter mapping differing. -/
theorem C1_template_ignores_filter_values (i1 i2 : QueryIntent)
    (hi : i1.intent = i2.intent) (hm : i1.metric = i2.metric)
    (ht : i1.time_range = i2.time_range)
    (hk : i1.filters.map Prod.fst = i2.filters.map Prod.fst) :
    template_of (build_query i1) = template_of (build_query i2) := by
  have hfc : filter_clauses i1.filters = filter_clauses i2.filters := by
    unfold filter_clauses
    rw [show (fun kv : String × Value => kv.1 ++ " = :" ++ kv.1) =
        (fun k : String => k ++ " = :" ++ k) ∘ Prod.fst from rfl,
      ← List.map_map, ← List.map_map, hk]
  rw [template_of_build, template_of_build, hi]
  by_cases h1 : i2.intent = "count"
  · simp [h1, build_count_template, hm, ht, hfc]
  · by_cases h2 : i2.intent = "sum"
    · simp [h1, h2, build_sum_template, hm, ht, hfc]
    · simp [h1, h2]

/-- The hostile and the benign variant of the same count intent. -/
def inj_hostile : QueryIntent :=
  ⟨"count", "videos", none, [("creator_id", Value.s "1; DROP TABLE videos --")], none⟩

/-- The benign variant. -/
def inj_benign : QueryIntent :=
  ⟨"count", "videos", none, [("creator_id", Value.i 123)], none⟩

/-- Witness for C1: a hostile filter value and a benign one for
`creator_id` give the same template. -/
theorem C1_witness :
    template_of (build_query inj_hostile) = template_of (build_query inj_benign) :=
  C1_template_ignores_filter_values inj_hostile inj_benign rfl rfl rfl rfl

/-- C2 counterexample: a filter key loaded with SQL metacharacters is NOT
rejected; compilation succeeds and interpolates the key verbatim into the
template text. -/
theorem C2_counterexample :
    build_query evil_intent = Except.ok
      ("SELECT COUNT(*) FROM videos WHERE id; DROP TABLE videos -- = :id; DROP TABLE videos --",
        [("id; DROP TABLE videos --", Value.s "x")]) := rfl

/-- C2 amended: there is no vocabulary check at all.  For count and sum
intents compilation always succeeds, every filter key (recognized or not)
is interpolated verbatim into a `key = :key` clause of the template, and
the `group_by` field is ignored entirely rather than validated. -/
theorem C2_amended_keys_interpolated (i : QueryIntent) (kv : String × Value)
    (hkv : kv ∈ i.filters) (h : i.intent = "count" ∨ i.intent = "sum") :
    (∃ tp, build_query i = Except.ok tp) ∧
    (kv.1 ++ " = :" ++ kv.1) ∈ filter_clauses i.filters ∧
    (∀ g1 g2 : Option String,
      build_query ⟨i.intent, i.metric, i.time_range, i.filters, g1⟩ =
        build_query ⟨i.intent, i.metric, i.time_range, i.filters, g2⟩) := by
  refine ⟨?_, List.mem_map_of_mem _ hkv, fun g1 g2 => rfl⟩
  by_cases hc : i.intent = "count"
  · exact ⟨build_count_query i, by simp [build_query, hc]⟩
  · rcases h with h | h
    · exact absurd h hc
    · exact ⟨build_sum_query i, by simp [build_query, hc, h]⟩

/-- Witness for C2 (amended) at the hostile filter key. -/
theorem C2_witness :
    (∃ tp, build_query evil_intent = Except.ok tp) ∧
    ("id; DROP TABLE videos --" ++ " = :" ++ "id; DROP TABLE videos --")
      ∈ filter_clauses evil_intent.filters ∧
    (∀ g1 g2 : Option String,
      build_query ⟨evil_intent.intent, evil_intent.metric, evil_intent.time_range,
          evil_intent.filters, g1⟩ =
        build_query ⟨evil_intent.intent, evil_intent.metric, evil_intent.time_range,
          evil_intent.filters, g2⟩) :=
  C2_amended_keys_interpolated evil_intent ("id; DROP TABLE videos --", Value.s "x")
    (by decide) (Or.inl rfl)

/-- Two intents that are equal as records with equal filter DICTS (same
key-value mapping, different insertion order). -/
def perm_intent_a : QueryIntent :=
  ⟨"count", "videos", none, [("a", Value.i 1), ("b", Value.i 2)], none⟩

/-- The same dict inserted in the opposite order. -/
def perm_intent_b : QueryIntent :=
  ⟨"count", "videos", none, [("b", Value.i 2), ("a", Value.i 1)], none⟩

/-- C4 counterexample: the filter predicates follow the iteration
(insertion) order of `intent.filters.items()`, an unordered mapping; two
intents whose filter dicts are equal as mappings (a permutation of the same
key-value pairs, equal lookups) but were populated in a different order
compile to different templates, so compiled templates are not reproducible
for identical intents in the dict-equality sense. -/
theorem C4_counterexample :
    List.Perm perm_intent_a.filters perm_intent_b.filters ∧
    perm_intent_a.filters.lookup "a" = perm_intent_b.filters.lookup "a" ∧
    perm_intent_a.filters.lookup "b" = perm_intent_b.filters.lookup "b" ∧
    perm_intent_a.intent = perm_intent_b.intent ∧
    perm_intent_a.metric = perm_intent_b.metric ∧
    perm_intent_a.time_range = perm_intent_b.time_range ∧
    perm_intent_a.group_by = perm_intent_b.group_by ∧
    template_of (build_query perm_intent_a) ≠ template_of (build_query perm_intent_b) := by
  refine ⟨List.Perm.swap _ _ _, rfl, rfl, rfl, rfl, rfl, rfl, ?_⟩
  decide

/-- C4 amended: compilation is a pure function, so structurally equal
intents (equality that includes the insertion order of the filters mapping)
yield identical templates and parameter mappings, and the predicate order
is time range first, then the filters in their insertion/iteration order;
that order does depend on the order in which the filters dict was
populated. -/
theorem C4_amended_deterministic (i1 i2 : QueryIntent) (h : i1 = i2) :
    build_query i1 = build_query i2 ∧
    ((build_count_query i1).1 =
      (if i1.metric = "videos" then "SELECT COUNT(*) FROM videos "
        else "SELECT COUNT(DISTINCT video_id) FROM video_snapshots ")
        ++ where_text (time_clauses i1.time_range ++ filter_clauses i1.filters)) ∧
    ((build_sum_query i1).1 =
      "SELECT COALESCE(SUM(" ++ metric_column i1.metric ++ "), 0) FROM video_snapshots "
        ++ where_text (time_clauses i1.time_range ++ filter_clauses i1.filters)) :=
  ⟨by rw [h], build_count_template i1, build_sum_template i1⟩

/-- Witness for C4 (amended) at the Scenario B intent. -/
theorem C4_witness :
    build_query scenario_b = build_query scenario_b ∧
    ((build_count_query scenario_b).1 =
      (if scenario_b.metric = "videos" then "SELECT COUNT(*) FROM videos "
        else "SELECT COUNT(DISTINCT video_id) FROM video_snapshots ")
        ++ where_text (time_clauses scenario_b.time_range ++ filter_clauses scenario_b.filters)) ∧
    ((build_sum_query scenario_b).1 =
      "SELECT COALESCE(SUM(" ++ metric_column scenario_b.metric ++ "), 0) FROM video_snapshots "
        ++ where_text (time_clauses scenario_b.time_range ++ filter_clauses scenario_b.filters)) :=
  C4_amended_deterministic scenario_b scenario_b rfl

/-- C5: time-range bounds are inclusive and independently optional.  A
two-sided range (start=D1, end=D2) compiles to exactly the clause
`created_at >= :start_date` followed by `created_at <= :end_date` with the
bounds travelling as parameters; under the executor comparison semantics a
record whose timestamp equals exactly D1 or exactly D2 satisfies every
compiled time clause; a range supplying only one bound yields only that
bound's clause, and an absent range yields none. -/
theorem C5_inclusive_optional_bounds (D1 D2 : String) (h : D1 ≤ D2) :
    time_clauses (some [("start", D1), ("end", D2)]) =
      ["created_at >= :start_date", "created_at <= :end_date"] ∧
    time_params (some [("start", D1), ("end", D2)]) =
      [("start_date", Value.s D1), ("end_date", Value.s D2)] ∧
    (∀ c ∈ time_clauses (some [("start", D1), ("end", D2)]),
      clause_sat D1 (time_params (some [("start", D1), ("end", D2)])) c = true) ∧
    (∀ c ∈ time_clauses (some [("start", D1), ("end", D2)]),
      clause_sat D2 (time_params (some [("start", D1), ("end", D2)])) c = true) ∧
    time_clauses (some [("start", D1)]) = ["created_at >= :start_date"] ∧
    time_clauses (some [("end", D2)]) = ["created_at <= :end_date"] ∧
    time_clauses none = [] := by
  refine ⟨rfl, rfl, ?_, ?_, rfl, rfl, rfl⟩
  · intro c hc
    fin_cases hc
    · exact decide_eq_true (le_refl D1)
    · exact decide_eq_true h
  · intro c hc
    fin_cases hc
    · exact decide_eq_true h
    · exact decide_eq_true (le_refl D2)

/-- Witness for C5 at the one-day range of Scenario C. -/
theorem C5_witness :
    time_clauses (some [("start", "2025-11-28"), ("end", "2025-11-28")]) =
      ["created_at >= :start_date", "created_at <= :end_date"] ∧
    time_params (some [("start", "2025-11-28"), ("end", "2025-11-28")]) =
      [("start_date", Value.s "2025-11-28"), ("end_date", Value.s "2025-11-28")] ∧
    (∀ c ∈ time_clauses (some [("start", "2025-11-28"), ("end", "2025-11-28")]),
      clause_sat "2025-11-28"
        (time_params (some [("start", "2025-11-28"), ("end", "2025-11-28")])) c = true) ∧
    (∀ c ∈ time_clauses (some [("start", "2025-11-28"), ("end", "2025-11-28")]),
      clause_sat "2025-11-28"
        (time_params (some [("start", "2025-11-28"), ("end", "2025-11-28")])) c = true) ∧
    time_clauses (some [("start", "2025-11-28")]) = ["created_at >= :start_date"] ∧
    time_clauses (some [("end", "2025-11-28")]) = ["created_at <= :end_date"] ∧
    time_clauses none = [] :=
  C5_inclusive_optional_bounds "2025-11-28" "2025-11-28" (le_refl "2025-11-28")

/-- C8 counterexample: the Scenario D intent does compile to a distinct
count over `video_snapshots`, but its `min_delta_views` filter becomes the
equality clause `min_delta_views = :min_delta_views` on the literal filter
key, not a comparison predicate `delta_views_count > 0` on the delta
column. -/
theorem C8_counterexample :
    build_query scenario_d = Except.ok
      ("SELECT COUNT(DISTINCT video_id) FROM video_snapshots WHERE created_at >= :start_date AND created_at <= :end_date AND min_delta_views = :min_delta_views",
        [("start_date", Value.s "2025-11-27"), ("end_date", Value.s "2025-11-27"),
          ("min_delta_views", Value.i 1)]) ∧
    filter_clauses scenario_d.filters = ["min_delta_views = :min_delta_views"] :=
  ⟨rfl, rfl⟩

/-- C8 amended: every count intent with a non-videos metric compiles to a
count of distinct `video_id` over `video_snapshots`, and every filter —
including a minimum-counter threshold such as `min_delta_views` — compiles
to an equality clause `key = :key` on the literal filter key, never to a
comparison predicate. -/
theorem C8_amended_distinct_count (i : QueryIntent)
    (h1 : i.intent = "count") (h2 : i.metric ≠ "videos") :
    (∃ p, build_query i = Except.ok
      ("SELECT COUNT(DISTINCT video_id) FROM video_snapshots "
        ++ where_text (time_clauses i.time_range ++ filter_clauses i.filters), p)) ∧
    (∀ kv ∈ i.filters, (kv.1 ++ " = :" ++ kv.1) ∈ filter_clauses i.filters) := by
  refine ⟨⟨(build_count_query i).2, ?_⟩, fun kv hkv => List.mem_map_of_mem _ hkv⟩
  have ht : (build_count_query i).1 =
      "SELECT COUNT(DISTINCT video_id) FROM video_snapshots "
        ++ where_text (time_clauses i.time_range ++ filter_clauses i.filters) := by
    simp [build_count_query, h2]
  simp [build_query, h1, ← ht]

/-- Witness for C8 (amended) at the Scenario D intent. -/
theorem C8_witness :
    (∃ p, build_query scenario_d = Except.ok
      ("SELECT COUNT(DISTINCT video_id) FROM video_snapshots "
        ++ where_text (time_clauses scenario_d.time_range ++ filter_clauses scenario_d.filters),
        p)) ∧
    (∀ kv ∈ scenario_d.filters, (kv.1 ++ " = :" ++ kv.1) ∈ filter_clauses scenario_d.filters) :=
  C8_amended_distinct_count scenario_d rfl (by decide)

/-- C9 counterexample: constructing a `QueryIntent` from raw NLU output with
an unsupported aggregation (`median`), an unsupported metric, a time range
whose start exceeds its end, and an unrecognized filter key succeeds and
stores every field unchanged — no `MalformedIntentError` exists in the code;
the bad aggregation only surfaces later, at compilation. -/
theorem C9_counterexample :
    mk_query_intent "median" "bogus" (some [("start", "2025-12-31"), ("end", "2020-01-01")])
        [("unrecognized_key", Value.s "not-an-integer")] (some "moon_phase") =
      ⟨"median", "bogus", some [("start", "2025-12-31"), ("end", "2020-01-01")],
        [("unrecognized_key", Value.s "not-an-integer")], some "moon_phase"⟩ ∧
    build_query (mk_query_intent "median" "bogus"
        (some [("start", "2025-12-31"), ("end", "2020-01-01")])
        [("unrecognized_key", Value.s "not-an-integer")] (some "moon_phase")) =
      Except.error (BuildError.unsupportedQueryType "median") :=
  ⟨rfl, rfl⟩

/-- C9 amended: `QueryIntent` construction is pure and performs no
validation beyond the field types: it accepts any aggregation and metric
strings, any time-range dict (unparseable bounds, start after end), any
filter keys and values, and stores them unchanged; an unsupported
aggregation is only rejected later, by `build_query`. -/
theorem C9_amended_no_validation (a m : String) (tr : Option (List (String × String)))
    (fs : List (String × Value)) (gb : Option String)
    (h1 : a ≠ "count") (h2 : a ≠ "sum") :
    mk_query_intent a m tr fs gb = ⟨a, m, tr, fs, gb⟩ ∧
    build_query (mk_query_intent a m tr fs gb) =
      Except.error (BuildError.unsupportedQueryType a) := by
  refine ⟨rfl, ?_⟩
  simp [build_query, mk_query_intent, h1, h2]

/-- Witness for C9 (amended) at the median intent. -/
theorem C9_witness :
    mk_query_intent "median" "views" none [] none = ⟨"median", "views", none, [], none⟩ ∧
    build_query (mk_query_intent "median" "views" none [] none) =
      Except.error (BuildError.unsupportedQueryType "median") :=
  C9_amended_no_validation "median" "views" none [] none (by decide) (by decide)
